import Mathlib

/-!
Verification development for the scoliosis screening engine
(`backend/scoliovis` and `backend/photo_analysis` of the repository).

Conventions of the embedding:
* Python floats are modelled as `ℚ` wherever the source only performs
  field operations and comparisons; the Cobb-angle geometry, which uses
  `sqrt`/`arccos`, is modelled over `ℝ`.
* Python `round(x, 1)` is modelled as `round (10*x) / 10` (round half up;
  Python uses round half to even, which differs only on exact midpoints
  of the 0.05 grid — no property below depends on a midpoint).
* Long clinical prose strings from the source are abbreviated to a
  representative sentence; no property depends on their content, only on
  which lines are produced.
-/

/-- Risk level enumeration from `photo_analysis/mediapipe_analyzer.py`. -/
inductive RiskLevel where
  | LOW
  | MEDIUM
  | HIGH
deriving DecidableEq, Repr

/-- The `AsymmetryMetrics` dataclass of `mediapipe_analyzer.py` (lines 36-74).
Exactly the fields declared there; in particular it has NO
`higher_shoulder` / `higher_hip` fields. -/
structure AsymmetryMetrics where
  shoulder_height_diff_px : ℚ
  hip_height_diff_px : ℚ
  trunk_shift_px : ℚ
  waist_height_diff_px : ℚ := 0
  axilla_height_diff_px : ℚ := 0
  scapula_prominence_diff : ℚ := 0
  shoulder_rotation_score : ℚ := 0
  hip_rotation_score : ℚ := 0
  hai_score : ℚ := 0
  overall_asymmetry_score : ℚ := 0
  shoulder_height_diff_pct : ℚ := 0
  hip_height_diff_pct : ℚ := 0
  trunk_shift_pct : ℚ := 0
  waist_height_diff_pct : ℚ := 0
  axilla_height_diff_pct : ℚ := 0
deriving DecidableEq

/-- The `ClinicalFinding` dataclass of `mediapipe_analyzer.py`. -/
structure ClinicalFinding where
  measurement : String
  value : ℚ
  unit : String
  severity : String
  clinical_context : String
  reference : String
deriving DecidableEq

/-- HAI threshold block of `assess_risk_level` (hai > 15 → +30, > 10 → +20,
> 5 → +5), paired with the score contribution it adds. -/
def haiFindings (m : AsymmetryMetrics) : List (ClinicalFinding × ℕ) :=
  if 15 < m.hai_score then
    [(⟨"Height Asymmetry Index (HAI)", m.hai_score, "/100", "significant",
       "HAI significantly exceeds the clinical threshold (>10), consistent with underlying spinal curvature.",
       "POTSI methodology (Suzuki et al.); HAI clinical threshold studies"⟩, 30)]
  else if 10 < m.hai_score then
    [(⟨"Height Asymmetry Index (HAI)", m.hai_score, "/100", "moderate",
       "HAI exceeds the clinical threshold for pathologic asymmetry (>10).",
       "POTSI methodology; HAI threshold = 10"⟩, 20)]
  else if 5 < m.hai_score then
    [(⟨"Height Asymmetry Index (HAI)", m.hai_score, "/100", "mild",
       "HAI within normal range.",
       "POTSI normal range"⟩, 5)]
  else []

/-- Waist crease block of `assess_risk_level` (pct > 3.0 → +15, > 1.5 → +8). -/
def waistFindings (m : AsymmetryMetrics) : List (ClinicalFinding × ℕ) :=
  if 3 < m.waist_height_diff_pct then
    [(⟨"Waist Crease Asymmetry", m.waist_height_diff_pct, "% of torso", "significant",
       "Significant waist crease height difference, a classic sign of lumbar or thoracolumbar scoliosis.",
       "Clinical examination: waist crease asymmetry in scoliosis"⟩, 15)]
  else if 3/2 < m.waist_height_diff_pct then
    [(⟨"Waist Crease Asymmetry", m.waist_height_diff_pct, "% of torso", "moderate",
       "Moderate waist crease asymmetry detected.",
       "SRS clinical examination guidelines"⟩, 8)]
  else []

/-- Axillary fold block of `assess_risk_level` (pct > 2.5 → +10, > 1.0 → +4). -/
def axillaFindings (m : AsymmetryMetrics) : List (ClinicalFinding × ℕ) :=
  if 5/2 < m.axilla_height_diff_pct then
    [(⟨"Axillary Fold Asymmetry", m.axilla_height_diff_pct, "% of torso", "moderate",
       "The axillary folds (armpit creases) show height asymmetry.",
       "Post-operative shoulder imbalance studies; axilla position research"⟩, 10)]
  else if 1 < m.axilla_height_diff_pct then
    [(⟨"Axillary Fold Asymmetry", m.axilla_height_diff_pct, "% of torso", "mild",
       "Minor axillary fold height difference.",
       "HAI methodology"⟩, 4)]
  else []

/-- Shoulder height block of `assess_risk_level` (pct > 4.0 → +15, > 2.0 → +8,
> 1.0 → +3). -/
def shoulderFindings (m : AsymmetryMetrics) : List (ClinicalFinding × ℕ) :=
  if 4 < m.shoulder_height_diff_pct then
    [(⟨"Shoulder Height Difference", m.shoulder_height_diff_pct, "% of torso", "significant",
       "Exceeds clinical threshold for shoulder imbalance.",
       "Kuklo et al. (2006); Akel et al. shoulder imbalance studies"⟩, 15)]
  else if 2 < m.shoulder_height_diff_pct then
    [(⟨"Shoulder Height Difference", m.shoulder_height_diff_pct, "% of torso", "moderate",
       "Moderate shoulder height difference detected.",
       "Kuklo et al. (2006) shoulder imbalance threshold"⟩, 8)]
  else if 1 < m.shoulder_height_diff_pct then
    [(⟨"Shoulder Height Difference", m.shoulder_height_diff_pct, "% of torso", "mild",
       "Within normal variation.",
       "Akel et al. photographic shoulder assessment"⟩, 3)]
  else []

/-- Trunk shift block of `assess_risk_level` (pct > 7.5 → +35, > 5.0 → +20,
> 2.5 → +5). -/
def trunkShiftFindings (m : AsymmetryMetrics) : List (ClinicalFinding × ℕ) :=
  if 15/2 < m.trunk_shift_pct then
    [(⟨"Trunk Shift (Coronal Balance)", m.trunk_shift_pct, "% of shoulder width", "significant",
       "Significant lateral trunk deviation.",
       "SRS coronal balance classification; European Spine Journal (2018)"⟩, 35)]
  else if 5 < m.trunk_shift_pct then
    [(⟨"Trunk Shift (Coronal Balance)", m.trunk_shift_pct, "% of shoulder width", "moderate",
       "Moderate trunk decompensation detected.",
       "Scoliosis Research Society decompensation criteria"⟩, 20)]
  else if 5/2 < m.trunk_shift_pct then
    [(⟨"Trunk Shift (Coronal Balance)", m.trunk_shift_pct, "% of shoulder width", "mild",
       "Minor lateral shift detected.",
       "Coronal balance assessment guidelines"⟩, 5)]
  else []

/-- Hip height block of `assess_risk_level` (pct > 3.0 → +20, > 1.5 → +10). -/
def hipFindings (m : AsymmetryMetrics) : List (ClinicalFinding × ℕ) :=
  if 3 < m.hip_height_diff_pct then
    [(⟨"Hip/Pelvic Height Difference", m.hip_height_diff_pct, "% of torso", "significant",
       "Significant pelvic obliquity detected.",
       "Pelvic obliquity in scoliosis assessment literature"⟩, 20)]
  else if 3/2 < m.hip_height_diff_pct then
    [(⟨"Hip/Pelvic Height Difference", m.hip_height_diff_pct, "% of torso", "moderate",
       "Moderate pelvic obliquity.",
       "Pelvic assessment in postural screening"⟩, 10)]
  else []

/-- Shoulder rotation block of `assess_risk_level` (score > 0.08 → +10). -/
def shoulderRotationFindings (m : AsymmetryMetrics) : List (ClinicalFinding × ℕ) :=
  if 8/100 < m.shoulder_rotation_score then
    [(⟨"Shoulder Rotation Asymmetry", m.shoulder_rotation_score, "ratio", "moderate",
       "Detected rotational asymmetry in the shoulders.",
       "3D postural assessment methodology"⟩, 10)]
  else []

/-- Hip rotation block of `assess_risk_level` (score > 0.08 → +10). -/
def hipRotationFindings (m : AsymmetryMetrics) : List (ClinicalFinding × ℕ) :=
  if 8/100 < m.hip_rotation_score then
    [(⟨"Hip Rotation Asymmetry", m.hip_rotation_score, "ratio", "moderate",
       "Detected rotational asymmetry in the hips/pelvis.",
       "Pelvic rotation assessment"⟩, 10)]
  else []

/-- All findings of `assess_risk_level`, in source order, each paired with
its `risk_score` contribution. -/
def riskFindings (m : AsymmetryMetrics) : List (ClinicalFinding × ℕ) :=
  haiFindings m ++ waistFindings m ++ axillaFindings m ++ shoulderFindings m ++
  trunkShiftFindings m ++ hipFindings m ++ shoulderRotationFindings m ++ hipRotationFindings m

/-- The accumulated `risk_score` of `assess_risk_level`: the sum of the
per-tier contributions of all triggered thresholds (no cap applied). -/
def riskScore (m : AsymmetryMetrics) : ℕ :=
  ((riskFindings m).map Prod.snd).sum

/-- The `severity_prefix` dictionary lookup (with default "") used when
formatting a finding into a risk-factor line. -/
def severityMark (s : String) : String :=
  if s = "significant" then "⚠️ "
  else if s = "moderate" then "◐ "
  else if s = "mild" then "○ "
  else if s = "normal" then "✓ "
  else ""

/-- Python `str.upper()` restricted to the severity values that occur. -/
def severityUpper (s : String) : String :=
  if s = "significant" then "SIGNIFICANT"
  else if s = "moderate" then "MODERATE"
  else if s = "mild" then "MILD"
  else if s = "normal" then "NORMAL"
  else s

/-- The severity-prefixed summary line appended for each finding
(the Python format string at mediapipe_analyzer.py lines 780-783;
the value is formatted with no decimal places). -/
def summaryLine (f : ClinicalFinding) : String :=
  severityMark f.severity ++ f.measurement ++ ": " ++ toString (round f.value) ++
  f.unit ++ " (" ++ severityUpper f.severity ++ ")"

/-- The indented clinical-context line appended after each summary line. -/
def contextLine (f : ClinicalFinding) : String :=
  "   → " ++ f.clinical_context

/-- The fixed high-risk recommendation block. -/
def highRecommendations : List String :=
  ["CLINICAL EVALUATION RECOMMENDED: Multiple significant asymmetries detected that exceed clinical thresholds used in scoliosis screening programs.",
   "These findings suggest possible underlying spinal curvature.",
   "NEXT STEPS: Consult a healthcare provider for clinical examination.",
   "IMPORTANT: Early detection in adolescents (ages 10-18) is crucial as curves can progress during growth spurts."]

/-- The fixed medium-risk recommendation block. -/
def mediumRecommendations : List String :=
  ["MONITORING ADVISED: Some postural asymmetries detected that approach or exceed clinical screening thresholds.",
   "These findings alone are not diagnostic but may warrant attention.",
   "SUGGESTED ACTIONS: (1) Retake this screening in 4-6 weeks. (2) Consider a clinical screening exam. (3) Watch for progression of any asymmetry.",
   "CONTEXT: School scoliosis screening programs look for similar asymmetries."]

/-- The fixed low-risk recommendation block. -/
def lowRecommendations : List String :=
  ["REASSURING FINDINGS: Your postural measurements fall within normal variation seen in the general population.",
   "CONTEXT: Studies show only 19% of adolescents have perfectly symmetrical shoulders.",
   "MAINTENANCE: Continue good posture habits and general physical activity.",
   "FOLLOW-UP: Consider repeating this screening in 6-12 months."]

/-- The fixed two-line pair appended when no finding was triggered. -/
def noFindingsLines : List String :=
  ["✓ No significant postural asymmetries detected",
   "   → All measurements within normal population variation"]

/-- The final score-to-level mapping of `assess_risk_level`
(lines 787-823): score ≥ 50 → HIGH, ≥ 25 → MEDIUM, else LOW. -/
def risk_level_of (score : ℕ) : RiskLevel :=
  if 50 ≤ score then .HIGH
  else if 25 ≤ score then .MEDIUM
  else .LOW

/-- The `assess_risk_level` function of `mediapipe_analyzer.py` (lines
502-842): returns (risk level, risk-factor lines, recommendations). -/
def assess_risk_level (m : AsymmetryMetrics) : RiskLevel × List String × List String :=
  let fs := riskFindings m
  let score := riskScore m
  let rf := fs.foldl (fun acc p => acc ++ [summaryLine p.1, contextLine p.1]) []
  if 50 ≤ score then (.HIGH, rf, highRecommendations)
  else if 25 ≤ score then (.MEDIUM, rf, mediumRecommendations)
  else (.LOW, if fs.isEmpty then rf ++ noFindingsLines else rf, lowRecommendations)

/-- The risk-factor lines produced by the findings loop: two consecutive
lines per finding (summary, then indented context). -/
def twoLinesOf (fs : List (ClinicalFinding × ℕ)) : List String :=
  fs.foldr (fun p acc => summaryLine p.1 :: contextLine p.1 :: acc) []

lemma foldl_two_lines (fs : List (ClinicalFinding × ℕ)) (acc : List String) :
    fs.foldl (fun acc p => acc ++ [summaryLine p.1, contextLine p.1]) acc =
      acc ++ twoLinesOf fs := by
  induction fs generalizing acc with
  | nil => simp [twoLinesOf]
  | cons p ps ih =>
    simp only [List.foldl_cons, ih, twoLinesOf, List.foldr_cons]
    simp

lemma twoLinesOf_length (fs : List (ClinicalFinding × ℕ)) :
    (twoLinesOf fs).length = 2 * fs.length := by
  induction fs with
  | nil => rfl
  | cons p ps ih => simp [twoLinesOf, List.foldr] at ih ⊢; omega

lemma riskScore_of_empty (m : AsymmetryMetrics) (h : riskFindings m = []) :
    riskScore m = 0 := by
  simp [riskScore, h]

lemma assess_risk_level_fst (m : AsymmetryMetrics) :
    (assess_risk_level m).1 = risk_level_of (riskScore m) := by
  simp only [assess_risk_level, risk_level_of]
  split_ifs <;> rfl

lemma assess_high_iff (m : AsymmetryMetrics) :
    (assess_risk_level m).1 = RiskLevel.HIGH ↔ 50 ≤ riskScore m := by
  rw [assess_risk_level_fst]
  unfold risk_level_of
  split_ifs with h1 h2 <;> simp_all

lemma assess_medium_iff (m : AsymmetryMetrics) :
    (assess_risk_level m).1 = RiskLevel.MEDIUM ↔ 25 ≤ riskScore m ∧ riskScore m < 50 := by
  rw [assess_risk_level_fst]
  unfold risk_level_of
  split_ifs with h1 h2 <;> simp_all

lemma assess_low_iff (m : AsymmetryMetrics) :
    (assess_risk_level m).1 = RiskLevel.LOW ↔ riskScore m < 25 := by
  rw [assess_risk_level_fst]
  unfold risk_level_of
  split_ifs with h1 h2 <;> simp_all
  omega

/-- C3: `assess_risk_level` sums the fixed per-tier contributions of all
triggered thresholds into an uncapped risk score and maps it to a risk
level: HIGH exactly when the score is at least 50, MEDIUM exactly when it
is at least 25 and below 50, LOW otherwise; in particular the mapping
sends 24 to LOW, 25 and 49 to MEDIUM, and 50 to HIGH. -/
theorem assess_risk_level_score_mapping :
    (∀ m : AsymmetryMetrics,
      (assess_risk_level m).1 = risk_level_of (riskScore m) ∧
      ((assess_risk_level m).1 = RiskLevel.HIGH ↔ 50 ≤ riskScore m) ∧
      ((assess_risk_level m).1 = RiskLevel.MEDIUM ↔ 25 ≤ riskScore m ∧ riskScore m < 50) ∧
      ((assess_risk_level m).1 = RiskLevel.LOW ↔ riskScore m < 25)) ∧
    risk_level_of 24 = RiskLevel.LOW ∧ risk_level_of 25 = RiskLevel.MEDIUM ∧
    risk_level_of 49 = RiskLevel.MEDIUM ∧ risk_level_of 50 = RiskLevel.HIGH := by
  refine ⟨fun m => ⟨assess_risk_level_fst m, assess_high_iff m,
    assess_medium_iff m, assess_low_iff m⟩, ?_, ?_, ?_, ?_⟩ <;> decide

/-- C9: the risk-factor list always has even length: each triggered
threshold appends exactly two consecutive lines (a severity-prefixed
summary line then an indented clinical-context line), and when no
threshold triggers, the fixed two-line no-significant-asymmetries pair is
appended. -/
theorem assess_risk_factors_paired (m : AsymmetryMetrics) :
    (assess_risk_level m).2.1 =
      twoLinesOf (riskFindings m) ++
        (if (riskFindings m).isEmpty then noFindingsLines else []) ∧
    (assess_risk_level m).2.1.length = 2 * max (riskFindings m).length 1 := by
  by_cases hfs : riskFindings m = []
  · have hsc : riskScore m = 0 := riskScore_of_empty m hfs
    simp [assess_risk_level, hfs, hsc, twoLinesOf, noFindingsLines]
  · have hlen : 1 ≤ (riskFindings m).length := List.length_pos.mpr hfs
    have hne : (riskFindings m).isEmpty = false := by
      simpa [List.isEmpty_iff] using hfs
    have hmax : max (riskFindings m).length 1 = (riskFindings m).length := by omega
    simp only [assess_risk_level, hne, Bool.false_eq_true, if_false,
      foldl_two_lines, List.nil_append]
    split_ifs <;>
      simp [hmax, twoLinesOf_length]

lemma haiFindings_bound (m : AsymmetryMetrics) :
    ((haiFindings m).map Prod.snd).sum ≤ 35 * (haiFindings m).length := by
  unfold haiFindings; split_ifs <;> simp

lemma waistFindings_bound (m : AsymmetryMetrics) :
    ((waistFindings m).map Prod.snd).sum ≤ 35 * (waistFindings m).length := by
  unfold waistFindings; split_ifs <;> simp

lemma axillaFindings_bound (m : AsymmetryMetrics) :
    ((axillaFindings m).map Prod.snd).sum ≤ 35 * (axillaFindings m).length := by
  unfold axillaFindings; split_ifs <;> simp

lemma shoulderFindings_bound (m : AsymmetryMetrics) :
    ((shoulderFindings m).map Prod.snd).sum ≤ 35 * (shoulderFindings m).length := by
  unfold shoulderFindings; split_ifs <;> simp

lemma trunkShiftFindings_bound (m : AsymmetryMetrics) :
    ((trunkShiftFindings m).map Prod.snd).sum ≤ 35 * (trunkShiftFindings m).length := by
  unfold trunkShiftFindings; split_ifs <;> simp

lemma hipFindings_bound (m : AsymmetryMetrics) :
    ((hipFindings m).map Prod.snd).sum ≤ 35 * (hipFindings m).length := by
  unfold hipFindings; split_ifs <;> simp

lemma shoulderRotationFindings_bound (m : AsymmetryMetrics) :
    ((shoulderRotationFindings m).map Prod.snd).sum ≤ 35 * (shoulderRotationFindings m).length := by
  unfold shoulderRotationFindings; split_ifs <;> simp

lemma hipRotationFindings_bound (m : AsymmetryMetrics) :
    ((hipRotationFindings m).map Prod.snd).sum ≤ 35 * (hipRotationFindings m).length := by
  unfold hipRotationFindings; split_ifs <;> simp

/-- The largest single contribution of any threshold tier is 35
(significant trunk shift), so the total score is at most 35 per finding. -/
lemma riskScore_le_35_mul_findings (m : AsymmetryMetrics) :
    riskScore m ≤ 35 * (riskFindings m).length := by
  have h1 := haiFindings_bound m
  have h2 := waistFindings_bound m
  have h3 := axillaFindings_bound m
  have h4 := shoulderFindings_bound m
  have h5 := trunkShiftFindings_bound m
  have h6 := hipFindings_bound m
  have h7 := shoulderRotationFindings_bound m
  have h8 := hipRotationFindings_bound m
  simp only [riskScore, riskFindings, List.map_append, List.sum_append,
    List.length_append]
  omega

/-- C10: if `assess_risk_level` returns HIGH then at least two distinct
findings were triggered: the threshold tiers within each metric are
mutually exclusive and the largest single contribution is 35 (significant
trunk shift), so a score of at least 50 requires at least two findings. -/
theorem high_risk_requires_two_findings (m : AsymmetryMetrics)
    (h : (assess_risk_level m).1 = RiskLevel.HIGH) :
    2 ≤ (riskFindings m).length := by
  have hs : 50 ≤ riskScore m := (assess_high_iff m).1 h
  have hb := riskScore_le_35_mul_findings m
  omega

/-- Concrete metrics triggering a significant HAI finding (+30) and a
significant trunk-shift finding (+35), hence a HIGH risk level. -/
def metricsHighExample : AsymmetryMetrics :=
  { shoulder_height_diff_px := 0, hip_height_diff_px := 0, trunk_shift_px := 0,
    hai_score := 16, trunk_shift_pct := 8 }

/-- Witness for C10 at a concrete HIGH-risk input. -/
theorem high_risk_requires_two_findings_witness :
    2 ≤ (riskFindings metricsHighExample).length :=
  high_risk_requires_two_findings metricsHighExample (by
    norm_num [assess_risk_level, riskScore, riskFindings, metricsHighExample,
      haiFindings, waistFindings, axillaFindings, shoulderFindings,
      trunkShiftFindings, hipFindings, shoulderRotationFindings,
      hipRotationFindings])

/-- A MediaPipe pose landmark (`Landmark` dataclass of
`mediapipe_analyzer.py`): normalized coordinates plus depth and
visibility. A detection is modelled as an indexed set `ℕ → Landmark`. -/
structure Landmark where
  x : ℚ
  y : ℚ
  z : ℚ
  visibility : ℚ
deriving DecidableEq

def PoseLandmark.LEFT_SHOULDER : ℕ := 11

def PoseLandmark.RIGHT_SHOULDER : ℕ := 12

def PoseLandmark.LEFT_ELBOW : ℕ := 13

def PoseLandmark.RIGHT_ELBOW : ℕ := 14

def PoseLandmark.LEFT_HIP : ℕ := 23

def PoseLandmark.RIGHT_HIP : ℕ := 24

/-- The `DerivedLandmarks` dataclass: waist/axilla points as (x, y, z)
triples plus per-side scapula prominence. -/
structure DerivedLandmarks where
  left_waist : ℚ × ℚ × ℚ
  right_waist : ℚ × ℚ × ℚ
  left_axilla : ℚ × ℚ × ℚ
  right_axilla : ℚ × ℚ × ℚ
  left_scapula_prominence : ℚ
  right_scapula_prominence : ℚ
deriving DecidableEq

/-- `estimate_derived_landmarks` of `mediapipe_analyzer.py` (lines
124-208). The source constants are 0.62 (waist position from shoulder
toward hip), 0.18 (axilla vertical position) and 0.02 (axilla horizontal
inset). -/
def estimate_derived_landmarks (lm : ℕ → Landmark) : DerivedLandmarks :=
  let left_shoulder := lm PoseLandmark.LEFT_SHOULDER
  let right_shoulder := lm PoseLandmark.RIGHT_SHOULDER
  let left_hip := lm PoseLandmark.LEFT_HIP
  let right_hip := lm PoseLandmark.RIGHT_HIP
  let left_elbow := lm PoseLandmark.LEFT_ELBOW
  let right_elbow := lm PoseLandmark.RIGHT_ELBOW
  let shoulder_mid_x := (left_shoulder.x + right_shoulder.x) / 2
  { left_waist :=
      (left_shoulder.x + 62/100 * (left_hip.x - left_shoulder.x),
       left_shoulder.y + 62/100 * (left_hip.y - left_shoulder.y),
       left_shoulder.z + 62/100 * (left_hip.z - left_shoulder.z)),
    right_waist :=
      (right_shoulder.x + 62/100 * (right_hip.x - right_shoulder.x),
       right_shoulder.y + 62/100 * (right_hip.y - right_shoulder.y),
       right_shoulder.z + 62/100 * (right_hip.z - right_shoulder.z)),
    left_axilla :=
      (left_shoulder.x + 2/100 * (shoulder_mid_x - left_shoulder.x),
       left_shoulder.y + 18/100 * (left_hip.y - left_shoulder.y),
       left_shoulder.z),
    right_axilla :=
      (right_shoulder.x + 2/100 * (shoulder_mid_x - right_shoulder.x),
       right_shoulder.y + 18/100 * (right_hip.y - right_shoulder.y),
       right_shoulder.z),
    left_scapula_prominence :=
      |left_shoulder.z| + 1/2 * |left_elbow.z - left_shoulder.z|,
    right_scapula_prominence :=
      |right_shoulder.z| + 1/2 * |right_elbow.z - right_shoulder.z| }

/-- Python `round(x, 1)`. -/
def round1 (q : ℚ) : ℚ := (round (10 * q) : ℤ) / 10

/-- Python `round(x, 4)`. -/
def round4 (q : ℚ) : ℚ := (round (10000 * q) : ℤ) / 10000

/-- Local `shoulder_height_diff_px` of `calculate_asymmetry_metrics`. -/
def shoulder_height_diff_px (lm : ℕ → Landmark) (image_height : ℚ) : ℚ :=
  ((lm PoseLandmark.RIGHT_SHOULDER).y - (lm PoseLandmark.LEFT_SHOULDER).y) * image_height

/-- Local `hip_height_diff_px` of `calculate_asymmetry_metrics`. -/
def hip_height_diff_px (lm : ℕ → Landmark) (image_height : ℚ) : ℚ :=
  ((lm PoseLandmark.RIGHT_HIP).y - (lm PoseLandmark.LEFT_HIP).y) * image_height

/-- Local `waist_height_diff_px` of `calculate_asymmetry_metrics`. -/
def waist_height_diff_px (lm : ℕ → Landmark) (image_height : ℚ) : ℚ :=
  ((estimate_derived_landmarks lm).right_waist.2.1 -
    (estimate_derived_landmarks lm).left_waist.2.1) * image_height

/-- Local `axilla_height_diff_px` of `calculate_asymmetry_metrics`. -/
def axilla_height_diff_px (lm : ℕ → Landmark) (image_height : ℚ) : ℚ :=
  ((estimate_derived_landmarks lm).right_axilla.2.1 -
    (estimate_derived_landmarks lm).left_axilla.2.1) * image_height

/-- Local `scapula_prominence_diff` of `calculate_asymmetry_metrics`. -/
def scapula_prominence_diff (lm : ℕ → Landmark) : ℚ :=
  (estimate_derived_landmarks lm).right_scapula_prominence -
    (estimate_derived_landmarks lm).left_scapula_prominence

/-- Local `trunk_shift_px` of `calculate_asymmetry_metrics`: lateral
deviation of the shoulder midpoint from the hip midpoint. -/
def trunk_shift_px (lm : ℕ → Landmark) (image_width : ℚ) : ℚ :=
  (((lm PoseLandmark.LEFT_SHOULDER).x + (lm PoseLandmark.RIGHT_SHOULDER).x) / 2 -
    ((lm PoseLandmark.LEFT_HIP).x + (lm PoseLandmark.RIGHT_HIP).x) / 2) * image_width

/-- Local `shoulder_rotation_score` of `calculate_asymmetry_metrics`. -/
def shoulder_rotation_score (lm : ℕ → Landmark) : ℚ :=
  |(lm PoseLandmark.LEFT_SHOULDER).z - (lm PoseLandmark.RIGHT_SHOULDER).z|

/-- Local `hip_rotation_score` of `calculate_asymmetry_metrics`. -/
def hip_rotation_score (lm : ℕ → Landmark) : ℚ :=
  |(lm PoseLandmark.LEFT_HIP).z - (lm PoseLandmark.RIGHT_HIP).z|

/-- Local `torso_height_px` of `calculate_asymmetry_metrics`: shoulder
midpoint to hip midpoint distance in pixels. -/
def torso_height_px (lm : ℕ → Landmark) (image_height : ℚ) : ℚ :=
  |((lm PoseLandmark.LEFT_HIP).y + (lm PoseLandmark.RIGHT_HIP).y) / 2 -
    ((lm PoseLandmark.LEFT_SHOULDER).y + (lm PoseLandmark.RIGHT_SHOULDER).y) / 2| * image_height

/-- Local `shoulder_width_px` of `calculate_asymmetry_metrics`. -/
def shoulder_width_px (lm : ℕ → Landmark) (image_width : ℚ) : ℚ :=
  |(lm PoseLandmark.RIGHT_SHOULDER).x - (lm PoseLandmark.LEFT_SHOULDER).x| * image_width

/-- Local `shoulder_height_diff_pct` (0 when the torso height is not
positive). -/
def shoulder_height_diff_pct (lm : ℕ → Landmark) (image_height : ℚ) : ℚ :=
  if 0 < torso_height_px lm image_height then
    |shoulder_height_diff_px lm image_height| / torso_height_px lm image_height * 100
  else 0

/-- Local `hip_height_diff_pct`. -/
def hip_height_diff_pct (lm : ℕ → Landmark) (image_height : ℚ) : ℚ :=
  if 0 < torso_height_px lm image_height then
    |hip_height_diff_px lm image_height| / torso_height_px lm image_height * 100
  else 0

/-- Local `waist_height_diff_pct`. -/
def waist_height_diff_pct (lm : ℕ → Landmark) (image_height : ℚ) : ℚ :=
  if 0 < torso_height_px lm image_height then
    |waist_height_diff_px lm image_height| / torso_height_px lm image_height * 100
  else 0

/-- Local `axilla_height_diff_pct`. -/
def axilla_height_diff_pct (lm : ℕ → Landmark) (image_height : ℚ) : ℚ :=
  if 0 < torso_height_px lm image_height then
    |axilla_height_diff_px lm image_height| / torso_height_px lm image_height * 100
  else 0

/-- Local `trunk_shift_pct` (0 when the shoulder width is not positive). -/
def trunk_shift_pct (lm : ℕ → Landmark) (image_width : ℚ) : ℚ :=
  if 0 < shoulder_width_px lm image_width then
    |trunk_shift_px lm image_width| / shoulder_width_px lm image_width * 100
  else 0

/-- Local `hai_score` before rounding: `min(100, hai_raw)` when the torso
height is positive, else 0 (mediapipe_analyzer.py lines 435-444). -/
def live_hai_score (lm : ℕ → Landmark) (image_height : ℚ) : ℚ :=
  if 0 < torso_height_px lm image_height then
    min 100 ((|shoulder_height_diff_px lm image_height| +
              |axilla_height_diff_px lm image_height| +
              |waist_height_diff_px lm image_height|) /
             torso_height_px lm image_height * 100)
  else 0

/-- The accumulated `score` of `calculate_asymmetry_metrics` (lines
452-470): six capped terms — three HAI height components, trunk shift,
shoulder rotation, and scapula prominence. -/
def live_score (lm : ℕ → Landmark) (image_width image_height : ℚ) : ℚ :=
  min 20 (shoulder_height_diff_pct lm image_height / (5/2) * 20) +
  min 20 (axilla_height_diff_pct lm image_height / (5/2) * 20) +
  min 20 (waist_height_diff_pct lm image_height / (5/2) * 20) +
  min 25 (trunk_shift_pct lm image_width / 5 * 25) +
  min 8 (shoulder_rotation_score lm / (5/100) * 8) +
  min 7 (|scapula_prominence_diff lm| / (5/100) * 7)

/-- `calculate_asymmetry_metrics` of `mediapipe_analyzer.py` (lines
317-488). The source also computes a `waist_trunk_shift_px` local that is
never used in the returned metrics; it is omitted here. The unused
`estimated_distance_cm` parameter is likewise omitted. -/
def calculate_asymmetry_metrics (lm : ℕ → Landmark) (image_width image_height : ℚ) :
    AsymmetryMetrics :=
  { shoulder_height_diff_px := round1 (shoulder_height_diff_px lm image_height),
    hip_height_diff_px := round1 (hip_height_diff_px lm image_height),
    trunk_shift_px := round1 (trunk_shift_px lm image_width),
    waist_height_diff_px := round1 (waist_height_diff_px lm image_height),
    axilla_height_diff_px := round1 (axilla_height_diff_px lm image_height),
    scapula_prominence_diff := round4 (scapula_prominence_diff lm),
    shoulder_rotation_score := round4 (shoulder_rotation_score lm),
    hip_rotation_score := round4 (hip_rotation_score lm),
    hai_score := round1 (live_hai_score lm image_height),
    overall_asymmetry_score := round1 (min 100 (live_score lm image_width image_height)),
    shoulder_height_diff_pct := round1 (shoulder_height_diff_pct lm image_height),
    hip_height_diff_pct := round1 (hip_height_diff_pct lm image_height),
    trunk_shift_pct := round1 (trunk_shift_pct lm image_width),
    waist_height_diff_pct := round1 (waist_height_diff_pct lm image_height),
    axilla_height_diff_pct := round1 (axilla_height_diff_pct lm image_height) }

/-- `LandmarkPosition` schema (api/schemas.py): a manually adjusted
normalized position. -/
structure LandmarkPosition where
  x : ℚ
  y : ℚ
deriving DecidableEq

/-- `LandmarkPositions` schema: the eight editable landmarks of the
manual-recalculation request. -/
structure LandmarkPositions where
  left_shoulder : LandmarkPosition
  right_shoulder : LandmarkPosition
  left_hip : LandmarkPosition
  right_hip : LandmarkPosition
  left_axilla : LandmarkPosition
  right_axilla : LandmarkPosition
  left_waist : LandmarkPosition
  right_waist : LandmarkPosition
deriving DecidableEq

/-- Local `shoulder_height_diff_px` of `recalculate_metrics`
(api/routes.py lines 380-384). -/
def recalc_shoulder_height_diff_px (lm : LandmarkPositions) (h : ℚ) : ℚ :=
  (lm.right_shoulder.y - lm.left_shoulder.y) * h

/-- Local `hip_height_diff_px` of `recalculate_metrics`. -/
def recalc_hip_height_diff_px (lm : LandmarkPositions) (h : ℚ) : ℚ :=
  (lm.right_hip.y - lm.left_hip.y) * h

/-- Local `waist_height_diff_px` of `recalculate_metrics`. -/
def recalc_waist_height_diff_px (lm : LandmarkPositions) (h : ℚ) : ℚ :=
  (lm.right_waist.y - lm.left_waist.y) * h

/-- Local `axilla_height_diff_px` of `recalculate_metrics`. -/
def recalc_axilla_height_diff_px (lm : LandmarkPositions) (h : ℚ) : ℚ :=
  (lm.right_axilla.y - lm.left_axilla.y) * h

/-- Local `trunk_shift_px` of `recalculate_metrics` (lines 386-389). -/
def recalc_trunk_shift_px (lm : LandmarkPositions) (w : ℚ) : ℚ :=
  ((lm.left_shoulder.x + lm.right_shoulder.x) / 2 -
    (lm.left_hip.x + lm.right_hip.x) / 2) * w

/-- Local `torso_height_px` of `recalculate_metrics` (lines 392-395). -/
def recalc_torso_height_px (lm : LandmarkPositions) (h : ℚ) : ℚ :=
  |(lm.left_hip.y + lm.right_hip.y) / 2 -
    (lm.left_shoulder.y + lm.right_shoulder.y) / 2| * h

/-- Local `shoulder_width_px` of `recalculate_metrics`. -/
def recalc_shoulder_width_px (lm : LandmarkPositions) (w : ℚ) : ℚ :=
  |lm.right_shoulder.x - lm.left_shoulder.x| * w

/-- Local `shoulder_height_diff_pct` of `recalculate_metrics` (lines
398-408; 0 when the torso height is not positive). -/
def recalc_shoulder_height_diff_pct (lm : LandmarkPositions) (h : ℚ) : ℚ :=
  if 0 < recalc_torso_height_px lm h then
    |recalc_shoulder_height_diff_px lm h| / recalc_torso_height_px lm h * 100
  else 0

/-- Local `hip_height_diff_pct` of `recalculate_metrics`. -/
def recalc_hip_height_diff_pct (lm : LandmarkPositions) (h : ℚ) : ℚ :=
  if 0 < recalc_torso_height_px lm h then
    |recalc_hip_height_diff_px lm h| / recalc_torso_height_px lm h * 100
  else 0

/-- Local `waist_height_diff_pct` of `recalculate_metrics`. -/
def recalc_waist_height_diff_pct (lm : LandmarkPositions) (h : ℚ) : ℚ :=
  if 0 < recalc_torso_height_px lm h then
    |recalc_waist_height_diff_px lm h| / recalc_torso_height_px lm h * 100
  else 0

/-- Local `axilla_height_diff_pct` of `recalculate_metrics`. -/
def recalc_axilla_height_diff_pct (lm : LandmarkPositions) (h : ℚ) : ℚ :=
  if 0 < recalc_torso_height_px lm h then
    |recalc_axilla_height_diff_px lm h| / recalc_torso_height_px lm h * 100
  else 0

/-- Local `trunk_shift_pct` of `recalculate_metrics` (lines 410-413). -/
def recalc_trunk_shift_pct (lm : LandmarkPositions) (w : ℚ) : ℚ :=
  if 0 < recalc_shoulder_width_px lm w then
    |recalc_trunk_shift_px lm w| / recalc_shoulder_width_px lm w * 100
  else 0

/-- Local `hai_score` of `recalculate_metrics` (lines 415-424). -/
def recalc_hai_score (lm : LandmarkPositions) (h : ℚ) : ℚ :=
  if 0 < recalc_torso_height_px lm h then
    min 100 ((|recalc_shoulder_height_diff_px lm h| +
              |recalc_axilla_height_diff_px lm h| +
              |recalc_waist_height_diff_px lm h|) /
             recalc_torso_height_px lm h * 100)
  else 0

/-- The accumulated `score` of `recalculate_metrics` (lines 427-431):
only the four HAI/trunk terms — the rotation and scapula terms of the
live-photo path are absent because no 3-D data is available. -/
def recalc_score (lm : LandmarkPositions) (w h : ℚ) : ℚ :=
  min 20 (recalc_shoulder_height_diff_pct lm h / (5/2) * 20) +
  min 20 (recalc_axilla_height_diff_pct lm h / (5/2) * 20) +
  min 20 (recalc_waist_height_diff_pct lm h / (5/2) * 20) +
  min 25 (recalc_trunk_shift_pct lm w / 5 * 25)

/-- Local `overall_asymmetry_score` of `recalculate_metrics` (line 432). -/
def recalc_overall_asymmetry_score (lm : LandmarkPositions) (w h : ℚ) : ℚ :=
  min 100 (recalc_score lm w h)

/-- Local `higher_shoulder` of `recalculate_metrics` (lines 440-446):
set when the percentage difference reaches the 0.5 threshold; the label
is the VIEWER side, so a positive right-minus-left pixel difference
(subject left higher) is labelled "right". -/
def recalc_higher_shoulder (lm : LandmarkPositions) (h : ℚ) : Option String :=
  if 1/2 ≤ recalc_shoulder_height_diff_pct lm h then
    some (if 0 < recalc_shoulder_height_diff_px lm h then "right" else "left")
  else none

/-- Local `higher_hip` of `recalculate_metrics` (lines 448-451). -/
def recalc_higher_hip (lm : LandmarkPositions) (h : ℚ) : Option String :=
  if 1/2 ≤ recalc_hip_height_diff_pct lm h then
    some (if 0 < recalc_hip_height_diff_px lm h then "right" else "left")
  else none

/-- The field names of the `AsymmetryMetrics` dataclass of
`mediapipe_analyzer.py` (lines 36-74), in declaration order. A Python
dataclass generates an `__init__` accepting exactly these keywords. -/
def analyzerMetricsFieldNames : List String :=
  ["shoulder_height_diff_px", "hip_height_diff_px", "trunk_shift_px",
   "waist_height_diff_px", "axilla_height_diff_px", "scapula_prominence_diff",
   "shoulder_rotation_score", "hip_rotation_score", "hai_score",
   "overall_asymmetry_score", "shoulder_height_diff_pct", "hip_height_diff_pct",
   "trunk_shift_pct", "waist_height_diff_pct", "axilla_height_diff_pct"]

/-- The keyword arguments `recalculate_metrics` passes when constructing
`AnalyzerMetrics` (routes.py lines 454-472), in source order. The last
two (`higher_shoulder`, `higher_hip`) are not fields of the dataclass. -/
def recalcMetricsKwargNames : List String :=
  ["shoulder_height_diff_px", "hip_height_diff_px", "trunk_shift_px",
   "waist_height_diff_px", "axilla_height_diff_px", "scapula_prominence_diff",
   "shoulder_rotation_score", "hip_rotation_score", "hai_score",
   "overall_asymmetry_score", "shoulder_height_diff_pct", "hip_height_diff_pct",
   "trunk_shift_pct", "waist_height_diff_pct", "axilla_height_diff_pct",
   "higher_shoulder", "higher_hip"]

/-- The metric VALUES `recalculate_metrics` computes for the construction
at routes.py lines 454-472 (rounded as in the source; the three scores
that cannot be derived from 2-D positions are 0). -/
def recalcConstructedMetrics (lm : LandmarkPositions) (w h : ℚ) : AsymmetryMetrics :=
  { shoulder_height_diff_px := round1 (recalc_shoulder_height_diff_px lm h),
    hip_height_diff_px := round1 (recalc_hip_height_diff_px lm h),
    trunk_shift_px := round1 (recalc_trunk_shift_px lm w),
    waist_height_diff_px := round1 (recalc_waist_height_diff_px lm h),
    axilla_height_diff_px := round1 (recalc_axilla_height_diff_px lm h),
    scapula_prominence_diff := 0,
    shoulder_rotation_score := 0,
    hip_rotation_score := 0,
    hai_score := round1 (recalc_hai_score lm h),
    overall_asymmetry_score := round1 (recalc_overall_asymmetry_score lm w h),
    shoulder_height_diff_pct := round1 (recalc_shoulder_height_diff_pct lm h),
    hip_height_diff_pct := round1 (recalc_hip_height_diff_pct lm h),
    trunk_shift_pct := round1 (recalc_trunk_shift_pct lm w),
    waist_height_diff_pct := round1 (recalc_waist_height_diff_pct lm h),
    axilla_height_diff_pct := round1 (recalc_axilla_height_diff_pct lm h) }

/-- The `/recalculate-metrics` endpoint body (routes.py lines 357-512):
it computes the metric values, then constructs the analyzer
`AsymmetryMetrics` dataclass with the keyword arguments of
`recalcMetricsKwargNames`. Python dataclass construction raises
`TypeError` when a keyword is not a declared field, and the surrounding
`except Exception` turns that into an error response, modelled as `none`;
on success the endpoint would return the metrics, the sidedness labels,
and the risk assessment triple. -/
def recalculate_metrics (lm : LandmarkPositions) (w h : ℚ) :
    Option (AsymmetryMetrics × Option String × Option String ×
            RiskLevel × List String × List String) :=
  if recalcMetricsKwargNames.all (fun k => analyzerMetricsFieldNames.contains k) then
    let metrics := recalcConstructedMetrics lm w h
    let r := assess_risk_level metrics
    some (metrics, recalc_higher_shoulder lm h, recalc_higher_hip lm h,
          r.1, r.2.1, r.2.2)
  else none

/-- C2 (code bug): the `/recalculate-metrics` endpoint never returns
metrics at all — the construction of the analyzer `AsymmetryMetrics`
dataclass passes `higher_shoulder`/`higher_hip` keywords that the
dataclass does not declare, so every request raises `TypeError` and is
turned into an error response. The claimed sidedness behaviour is the
evident intent (the response dict reads `metrics.higher_shoulder`, and
the pydantic schema declares both fields), but the code as written fails
on every input. -/
theorem recalculate_metrics_always_errors (lm : LandmarkPositions) (w h : ℚ) :
    recalculate_metrics lm w h = none := by
  simp [recalculate_metrics, recalcMetricsKwargNames, analyzerMetricsFieldNames]

lemma round_q_mono {a b : ℚ} (h : a ≤ b) : round a ≤ round b := by
  rw [round_eq, round_eq]
  exact Int.floor_mono (by linarith)

lemma round1_mono {a b : ℚ} (h : a ≤ b) : round1 a ≤ round1 b := by
  unfold round1
  have h1 : round (10 * a) ≤ round (10 * b) := round_q_mono (by linarith)
  have h2 : ((round (10 * a) : ℤ) : ℚ) ≤ ((round (10 * b) : ℤ) : ℚ) := by
    exact_mod_cast h1
  linarith

lemma round1_nonneg {a : ℚ} (h : 0 ≤ a) : 0 ≤ round1 a := by
  unfold round1
  have h1 : (0 : ℤ) ≤ round (10 * a) := by
    rw [round_eq]
    exact Int.le_floor.mpr (by push_cast; linarith)
  have h2 : (0 : ℚ) ≤ ((round (10 * a) : ℤ) : ℚ) := by exact_mod_cast h1
  linarith

lemma round1_le_nat (a : ℚ) (n : ℕ) (h : a ≤ n) : round1 a ≤ n := by
  have h1 : round1 a ≤ round1 (n : ℚ) := round1_mono h
  have h2 : round1 (n : ℚ) = n := by
    unfold round1
    have hc : (10 : ℚ) * n = ((10 * n : ℕ) : ℚ) := by push_cast; ring
    rw [hc, round_natCast]
    push_cast
    field_simp
  linarith

lemma round1_zero : round1 0 = 0 := by
  unfold round1
  norm_num [round_zero]

lemma pct_nonneg (num denom : ℚ) :
    0 ≤ if 0 < denom then |num| / denom * 100 else 0 := by
  split_ifs with hp
  · exact mul_nonneg (div_nonneg (abs_nonneg _) hp.le) (by norm_num)
  · exact le_refl 0

lemma min_term_bounds (c t : ℚ) (hc : 0 ≤ c) (ht : 0 ≤ t) :
    0 ≤ min c t ∧ min c t ≤ c :=
  ⟨le_min hc ht, min_le_left _ _⟩

lemma live_hai_score_bounds (lm : ℕ → Landmark) (h : ℚ) :
    0 ≤ live_hai_score lm h ∧ live_hai_score lm h ≤ 100 := by
  unfold live_hai_score
  split_ifs with hp
  · refine ⟨le_min (by norm_num) ?_, min_le_left _ _⟩
    have hn : 0 ≤ |shoulder_height_diff_px lm h| + |axilla_height_diff_px lm h| +
        |waist_height_diff_px lm h| := by positivity
    exact mul_nonneg (div_nonneg hn hp.le) (by norm_num)
  · norm_num

lemma live_score_bounds (lm : ℕ → Landmark) (w h : ℚ) :
    0 ≤ live_score lm w h ∧ live_score lm w h ≤ 100 := by
  unfold live_score
  have p1 : 0 ≤ shoulder_height_diff_pct lm h := by
    unfold shoulder_height_diff_pct; exact pct_nonneg _ _
  have p2 : 0 ≤ axilla_height_diff_pct lm h := by
    unfold axilla_height_diff_pct; exact pct_nonneg _ _
  have p3 : 0 ≤ waist_height_diff_pct lm h := by
    unfold waist_height_diff_pct; exact pct_nonneg _ _
  have p4 : 0 ≤ trunk_shift_pct lm w := by
    unfold trunk_shift_pct; exact pct_nonneg _ _
  have t1 := min_term_bounds 20 (shoulder_height_diff_pct lm h / (5/2) * 20)
    (by norm_num) (by positivity)
  have t2 := min_term_bounds 20 (axilla_height_diff_pct lm h / (5/2) * 20)
    (by norm_num) (by positivity)
  have t3 := min_term_bounds 20 (waist_height_diff_pct lm h / (5/2) * 20)
    (by norm_num) (by positivity)
  have t4 := min_term_bounds 25 (trunk_shift_pct lm w / 5 * 25)
    (by norm_num) (by positivity)
  have t5 := min_term_bounds 8 (shoulder_rotation_score lm / (5/100) * 8)
    (by norm_num) (by unfold shoulder_rotation_score; positivity)
  have t6 := min_term_bounds 7 (|scapula_prominence_diff lm| / (5/100) * 7)
    (by norm_num) (by positivity)
  refine ⟨?_, ?_⟩
  · linarith [t1.1, t2.1, t3.1, t4.1, t5.1, t6.1]
  · linarith [t1.2, t2.2, t3.2, t4.2, t5.2, t6.2]

lemma recalc_score_bounds (lm : LandmarkPositions) (w h : ℚ) :
    0 ≤ recalc_score lm w h ∧ recalc_score lm w h ≤ 85 := by
  unfold recalc_score
  have p1 : 0 ≤ recalc_shoulder_height_diff_pct lm h := by
    unfold recalc_shoulder_height_diff_pct; exact pct_nonneg _ _
  have p2 : 0 ≤ recalc_axilla_height_diff_pct lm h := by
    unfold recalc_axilla_height_diff_pct; exact pct_nonneg _ _
  have p3 : 0 ≤ recalc_waist_height_diff_pct lm h := by
    unfold recalc_waist_height_diff_pct; exact pct_nonneg _ _
  have p4 : 0 ≤ recalc_trunk_shift_pct lm w := by
    unfold recalc_trunk_shift_pct; exact pct_nonneg _ _
  have t1 := min_term_bounds 20 (recalc_shoulder_height_diff_pct lm h / (5/2) * 20)
    (by norm_num) (by positivity)
  have t2 := min_term_bounds 20 (recalc_axilla_height_diff_pct lm h / (5/2) * 20)
    (by norm_num) (by positivity)
  have t3 := min_term_bounds 20 (recalc_waist_height_diff_pct lm h / (5/2) * 20)
    (by norm_num) (by positivity)
  have t4 := min_term_bounds 25 (recalc_trunk_shift_pct lm w / 5 * 25)
    (by norm_num) (by positivity)
  refine ⟨?_, ?_⟩
  · linarith [t1.1, t2.1, t3.1, t4.1]
  · linarith [t1.2, t2.2, t3.2, t4.2]

lemma recalc_hai_score_bounds (lm : LandmarkPositions) (h : ℚ) :
    0 ≤ recalc_hai_score lm h ∧ recalc_hai_score lm h ≤ 100 := by
  unfold recalc_hai_score
  split_ifs with hp
  · refine ⟨le_min (by norm_num) ?_, min_le_left _ _⟩
    have hn : 0 ≤ |recalc_shoulder_height_diff_px lm h| +
        |recalc_axilla_height_diff_px lm h| + |recalc_waist_height_diff_px lm h| := by
      positivity
    exact mul_nonneg (div_nonneg hn hp.le) (by norm_num)
  · norm_num

/-- Concrete landmarks for which every term of the live-photo score hits
its cap: large height differences, a lateral trunk shift, a 0.1 shoulder
depth difference and a 0.1 scapula prominence difference. -/
def liveMaxLandmarks : ℕ → Landmark := fun i =>
  if i = 11 then ⟨8/10, 1/10, 0, 1⟩
  else if i = 12 then ⟨2/10, 3/10, 1/10, 1⟩
  else if i = 13 then ⟨0, 0, 0, 1⟩
  else if i = 14 then ⟨0, 0, 1/10, 1⟩
  else if i = 23 then ⟨6/10, 9/10, 0, 1⟩
  else if i = 24 then ⟨2/10, 9/10, 0, 1⟩
  else ⟨0, 0, 0, 0⟩

/-- C7: the manual-recalculation score is the sum of only four capped
terms (three HAI terms capped at 20 and the trunk-shift term capped at
25), so the overall asymmetry score of the manual path is at most 85 for
every input, whereas the live-photo path also adds the rotation (cap 8)
and scapula (cap 7) terms and reaches 100 on a concrete input. -/
theorem recalc_overall_at_most_85_live_reaches_100 :
    (∀ (lm : LandmarkPositions) (w h : ℚ),
      (recalcConstructedMetrics lm w h).overall_asymmetry_score ≤ 85) ∧
    (calculate_asymmetry_metrics liveMaxLandmarks 100 100).overall_asymmetry_score = 100 := by
  constructor
  · intro lm w h
    have hs : recalc_score lm w h ≤ 85 := (recalc_score_bounds lm w h).2
    have hov : recalc_overall_asymmetry_score lm w h ≤ 85 :=
      le_trans (min_le_right _ _) hs
    simpa [recalcConstructedMetrics] using round1_le_nat _ 85 hov
  · norm_num [calculate_asymmetry_metrics, live_score, round1, round_eq,
      shoulder_height_diff_pct, axilla_height_diff_pct, waist_height_diff_pct,
      trunk_shift_pct, shoulder_height_diff_px, axilla_height_diff_px,
      waist_height_diff_px, hip_height_diff_px, trunk_shift_px,
      torso_height_px, shoulder_width_px, shoulder_rotation_score,
      scapula_prominence_diff, estimate_derived_landmarks, liveMaxLandmarks,
      PoseLandmark.LEFT_SHOULDER, PoseLandmark.RIGHT_SHOULDER,
      PoseLandmark.LEFT_ELBOW, PoseLandmark.RIGHT_ELBOW,
      PoseLandmark.LEFT_HIP, PoseLandmark.RIGHT_HIP,
      abs_of_nonneg, abs_of_nonpos, min_def]

/-- C8 (amended): on both computation paths the HAI score and the overall
asymmetry score always lie in [0, 100]; the HAI score is 0 whenever the
torso height is not positive (the overall score can still be positive in
that case, through the trunk-shift term). -/
theorem hai_and_overall_scores_bounded :
    (∀ (lm : ℕ → Landmark) (w h : ℚ),
      0 ≤ (calculate_asymmetry_metrics lm w h).hai_score ∧
      (calculate_asymmetry_metrics lm w h).hai_score ≤ 100 ∧
      0 ≤ (calculate_asymmetry_metrics lm w h).overall_asymmetry_score ∧
      (calculate_asymmetry_metrics lm w h).overall_asymmetry_score ≤ 100) ∧
    (∀ (lm : LandmarkPositions) (w h : ℚ),
      0 ≤ (recalcConstructedMetrics lm w h).hai_score ∧
      (recalcConstructedMetrics lm w h).hai_score ≤ 100 ∧
      0 ≤ (recalcConstructedMetrics lm w h).overall_asymmetry_score ∧
      (recalcConstructedMetrics lm w h).overall_asymmetry_score ≤ 100) ∧
    (∀ (lm : ℕ → Landmark) (w h : ℚ), torso_height_px lm h ≤ 0 →
      (calculate_asymmetry_metrics lm w h).hai_score = 0) ∧
    (∀ (lm : LandmarkPositions) (w h : ℚ), recalc_torso_height_px lm h ≤ 0 →
      (recalcConstructedMetrics lm w h).hai_score = 0) := by
  refine ⟨?_, ?_, ?_, ?_⟩
  · intro lm w h
    have hh := live_hai_score_bounds lm h
    have hs := live_score_bounds lm w h
    have hov0 : 0 ≤ min 100 (live_score lm w h) := le_min (by norm_num) hs.1
    have hov1 : min 100 (live_score lm w h) ≤ 100 := min_le_left _ _
    exact ⟨by simpa [calculate_asymmetry_metrics] using round1_nonneg hh.1,
      by simpa [calculate_asymmetry_metrics] using round1_le_nat _ 100 hh.2,
      by simpa [calculate_asymmetry_metrics] using round1_nonneg hov0,
      by simpa [calculate_asymmetry_metrics] using round1_le_nat _ 100 hov1⟩
  · intro lm w h
    have hh := recalc_hai_score_bounds lm h
    have hs := recalc_score_bounds lm w h
    have hov0 : 0 ≤ recalc_overall_asymmetry_score lm w h :=
      le_min (by norm_num) hs.1
    have hov1 : recalc_overall_asymmetry_score lm w h ≤ 100 :=
      le_trans (min_le_right _ _) (by linarith [hs.2])
    exact ⟨by simpa [recalcConstructedMetrics] using round1_nonneg hh.1,
      by simpa [recalcConstructedMetrics] using round1_le_nat _ 100 hh.2,
      by simpa [recalcConstructedMetrics] using round1_nonneg hov0,
      by simpa [recalcConstructedMetrics] using round1_le_nat _ 100 hov1⟩
  · intro lm w h ht
    have hz : live_hai_score lm h = 0 := by
      unfold live_hai_score
      rw [if_neg (by exact not_lt.mpr ht)]
    simp [calculate_asymmetry_metrics, hz, round1_zero]
  · intro lm w h ht
    have hz : recalc_hai_score lm h = 0 := by
      unfold recalc_hai_score
      rw [if_neg (by exact not_lt.mpr ht)]
    simp [recalcConstructedMetrics, hz, round1_zero]

/-- Concrete landmarks whose torso height is zero (shoulders and hips at
the same mean height) but whose trunk shift is nonzero. -/
def degenerateTorsoLandmarks : ℕ → Landmark := fun i =>
  if i = 11 then ⟨9/10, 1/2, 0, 1⟩
  else if i = 12 then ⟨1/10, 1/2, 0, 1⟩
  else if i = 23 then ⟨1/2, 1/2, 0, 1⟩
  else if i = 24 then ⟨1/10, 1/2, 0, 1⟩
  else ⟨0, 0, 0, 0⟩

/-- C8 (counterexample to the claim as stated): with a non-positive torso
height the overall asymmetry score is NOT returned as 0 — the trunk-shift
term survives — while the HAI score is 0. -/
theorem overall_score_nonzero_at_degenerate_torso :
    torso_height_px degenerateTorsoLandmarks 100 = 0 ∧
    (calculate_asymmetry_metrics degenerateTorsoLandmarks 100 100).overall_asymmetry_score = 25 ∧
    (calculate_asymmetry_metrics degenerateTorsoLandmarks 100 100).hai_score = 0 := by
  refine ⟨?_, ?_, ?_⟩ <;>
    norm_num [calculate_asymmetry_metrics, live_score, live_hai_score, round1, round_eq,
      shoulder_height_diff_pct, axilla_height_diff_pct, waist_height_diff_pct,
      trunk_shift_pct, shoulder_height_diff_px, axilla_height_diff_px,
      waist_height_diff_px, hip_height_diff_px, trunk_shift_px,
      torso_height_px, shoulder_width_px, shoulder_rotation_score,
      scapula_prominence_diff, estimate_derived_landmarks, degenerateTorsoLandmarks,
      PoseLandmark.LEFT_SHOULDER, PoseLandmark.RIGHT_SHOULDER,
      PoseLandmark.LEFT_ELBOW, PoseLandmark.RIGHT_ELBOW,
      PoseLandmark.LEFT_HIP, PoseLandmark.RIGHT_HIP,
      abs_of_nonneg, abs_of_nonpos, min_def]

/-- Witness for the amended C8 at a concrete input with non-positive
torso height. -/
theorem hai_and_overall_scores_bounded_witness :
    (0 ≤ (calculate_asymmetry_metrics degenerateTorsoLandmarks 100 100).hai_score ∧
     (calculate_asymmetry_metrics degenerateTorsoLandmarks 100 100).hai_score ≤ 100 ∧
     0 ≤ (calculate_asymmetry_metrics degenerateTorsoLandmarks 100 100).overall_asymmetry_score ∧
     (calculate_asymmetry_metrics degenerateTorsoLandmarks 100 100).overall_asymmetry_score ≤ 100) ∧
    (calculate_asymmetry_metrics degenerateTorsoLandmarks 100 100).hai_score = 0 :=
  ⟨hai_and_overall_scores_bounded.1 degenerateTorsoLandmarks 100 100,
   hai_and_overall_scores_bounded.2.2.1 degenerateTorsoLandmarks 100 100 (by
     norm_num [torso_height_px, degenerateTorsoLandmarks,
       PoseLandmark.LEFT_SHOULDER, PoseLandmark.RIGHT_SHOULDER,
       PoseLandmark.LEFT_HIP, PoseLandmark.RIGHT_HIP])⟩

/-- Curve location enumeration (api/schemas.py). -/
inductive CurveLocation where
  | THORACIC
  | LUMBAR
  | THORACOLUMBAR
deriving DecidableEq, Repr

/-- Curve direction enumeration (api/schemas.py). -/
inductive CurveDirection where
  | LEFT
  | RIGHT
  | NONE
deriving DecidableEq, Repr

/-- Schroth classification enumeration (api/schemas.py). -/
inductive SchrothType where
  | TYPE_3C
  | TYPE_3CP
  | TYPE_4C
  | TYPE_4CP
  | UNKNOWN
deriving DecidableEq, Repr

/-- Severity enumeration (api/schemas.py). -/
inductive Severity where
  | MILD
  | MODERATE
  | SEVERE
  | VERY_SEVERE
deriving DecidableEq, Repr

/-- Patient orientation enumeration (api/schemas.py). -/
inductive ImageOrientation where
  | STANDARD
  | FLIPPED
  | UNKNOWN
deriving DecidableEq, Repr

/-- Vertebra corner keypoint (api/schemas.py). -/
structure Keypoint where
  x : ℚ
  y : ℚ
  confidence : ℚ := 1
deriving DecidableEq

instance : Inhabited Keypoint := ⟨⟨0, 0, 1⟩⟩

/-- Detected vertebra (api/schemas.py): four keypoints in the order
[top-left, top-right, bottom-left, bottom-right]. -/
structure Vertebra where
  index : ℤ
  label : String
  bounding_box : List ℚ
  keypoints : List Keypoint
  confidence : ℚ
  tilt_angle : ℚ := 0
deriving DecidableEq

instance : Inhabited Vertebra := ⟨⟨0, "", [], [], 0, 0⟩⟩

/-- `get_vertebra_center` of `scoliovis/cobb_angle.py`: the mean of the
four keypoints (the source sums all keypoints and divides by 4). -/
def get_vertebra_center (kps : List Keypoint) : ℚ × ℚ :=
  ((kps.map (·.x)).sum / 4, (kps.map (·.y)).sum / 4)

/-- `is_pelvis_balanced` of `scoliovis/classification.py` (lines 10-43):
the lowest vertebra is balanced when the tilt ratio of its lower endplate
is below the threshold (default 0.1); insufficient data counts as
balanced. -/
def is_pelvis_balanced (vs : List Vertebra) (threshold : ℚ := 1/10) : Bool :=
  if vs.length < 5 then true
  else
    let kp := (vs.getLastD default).keypoints
    if kp.length < 4 then true
    else
      let lower_left_y := (kp.getD 2 default).y
      let lower_right_y := (kp.getD 3 default).y
      let width := |(kp.getD 3 default).x - (kp.getD 2 default).x|
      if width = 0 then true
      else decide (|lower_right_y - lower_left_y| / width < threshold)

/-- `is_pelvis_lumbar_coupled` of `classification.py` (lines 46-83):
coupled when the lumbar region mean x and the pelvis x deviate to the
same side of the upper-vertebrae midline. -/
def is_pelvis_lumbar_coupled (vs : List Vertebra) : Bool :=
  if vs.length < 5 then true
  else
    let upper_xs := (vs.take 3).map (fun v => (get_vertebra_center v.keypoints).1)
    let midline_x := upper_xs.sum / (upper_xs.length : ℚ)
    let lumbar_start := vs.length - 5
    let lumbar_end := vs.length - 1
    let seg := (vs.drop lumbar_start).take (lumbar_end - lumbar_start)
    if seg.isEmpty then true
    else
      let lumbar_xs := seg.map (fun v => (get_vertebra_center v.keypoints).1)
      let lumbar_x := lumbar_xs.sum / (lumbar_xs.length : ℚ)
      let pelvis_x := (get_vertebra_center (vs.getLastD default).keypoints).1
      decide (0 < (lumbar_x - midline_x) * (pelvis_x - midline_x))

/-- Cobb angle measurement (api/schemas.py). The angle is the rounded
(one decimal) value, hence rational. -/
structure CobbAngleMeasurement where
  angle : ℚ
  upper_vertebra : String
  lower_vertebra : String
  apex_vertebra : String
  curve_location : CurveLocation
  curve_direction : CurveDirection
deriving DecidableEq

/-- Python `max(iterable, default=0)`. -/
def listMaxD (l : List ℚ) : ℚ :=
  match l with
  | [] => 0
  | x :: xs => xs.foldl max x

/-- Local `max_thoracic` of `determine_schroth_type`. -/
def max_thoracic_angle (ms : List CobbAngleMeasurement) : ℚ :=
  listMaxD ((ms.filter (fun c => c.curve_location = CurveLocation.THORACIC)).map (·.angle))

/-- Local `max_lumbar` of `determine_schroth_type` (lumbar and
thoracolumbar measurements both count as lumbar). -/
def max_lumbar_angle (ms : List CobbAngleMeasurement) : ℚ :=
  listMaxD ((ms.filter (fun c => c.curve_location = CurveLocation.LUMBAR ∨
    c.curve_location = CurveLocation.THORACOLUMBAR)).map (·.angle))

/-- Local `is_double_curve` of `determine_schroth_type`: both regional
maxima at least 10 degrees and differing by less than 15. -/
def is_double_curve (ms : List CobbAngleMeasurement) : Bool :=
  decide (10 ≤ max_thoracic_angle ms ∧ 10 ≤ max_lumbar_angle ms ∧
    |max_thoracic_angle ms - max_lumbar_angle ms| < 15)

/-- `determine_schroth_type` of `classification.py` (lines 110-161). The
source also computes `get_dominant_curve_region` into locals that the
decision tree never reads; that call is omitted. -/
def determine_schroth_type (ms : List CobbAngleMeasurement) (vs : List Vertebra) :
    SchrothType :=
  if ms.isEmpty then SchrothType.UNKNOWN
  else if is_pelvis_balanced vs then
    if is_double_curve ms then SchrothType.TYPE_4C
    else if max_lumbar_angle ms * (12/10) < max_thoracic_angle ms then SchrothType.TYPE_3C
    else SchrothType.TYPE_4C
  else
    if is_pelvis_lumbar_coupled vs then SchrothType.TYPE_3CP
    else SchrothType.TYPE_4CP

/-- `determine_severity` of `classification.py` (lines 164-183). -/
def determine_severity (primary_cobb_angle : ℚ) : Severity :=
  if primary_cobb_angle < 10 then Severity.MILD
  else if primary_cobb_angle < 25 then Severity.MILD
  else if primary_cobb_angle < 40 then Severity.MODERATE
  else if primary_cobb_angle < 50 then Severity.SEVERE
  else Severity.VERY_SEVERE

/-- C4: `determine_schroth_type` returns UNKNOWN exactly on an empty
measurement list; with a balanced pelvis it returns 4C for a double
curve, 3C when the maximum thoracic angle exceeds 1.2 times the maximum
lumbar angle (double curve excluded first), and 4C otherwise; with an
unbalanced pelvis it returns 3CP when pelvis and lumbar curve are
coupled and 4CP when not. -/
theorem determine_schroth_type_spec (ms : List CobbAngleMeasurement) (vs : List Vertebra) :
    (determine_schroth_type ms vs = SchrothType.UNKNOWN ↔ ms = []) ∧
    (ms ≠ [] → is_pelvis_balanced vs = true →
      determine_schroth_type ms vs =
        (if is_double_curve ms then SchrothType.TYPE_4C
         else if max_lumbar_angle ms * (12/10) < max_thoracic_angle ms then
           SchrothType.TYPE_3C
         else SchrothType.TYPE_4C)) ∧
    (ms ≠ [] → is_pelvis_balanced vs = false →
      determine_schroth_type ms vs =
        (if is_pelvis_lumbar_coupled vs then SchrothType.TYPE_3CP
         else SchrothType.TYPE_4CP)) := by
  refine ⟨?_, ?_, ?_⟩
  · by_cases hm : ms = []
    · simp [determine_schroth_type, hm]
    · unfold determine_schroth_type
      simp only [List.isEmpty_iff, hm, if_false, iff_false]
      intro h
      split_ifs at h
  · intro hm hb
    unfold determine_schroth_type
    rw [if_neg (by simp [hm]), if_pos hb]
  · intro hm hb
    unfold determine_schroth_type
    rw [if_neg (by simp [hm]), if_neg (by simp only [hb]; decide)]

/-- Concrete single thoracic 20 degree measurement. -/
def schrothExampleMeasurements : List CobbAngleMeasurement :=
  [⟨20, "T1", "T5", "T3", CurveLocation.THORACIC, CurveDirection.RIGHT⟩]

/-- Witness for C4: one thoracic 20 degree curve with no vertebrae
(balanced by default) classifies as 3C. -/
theorem determine_schroth_type_spec_witness :
    determine_schroth_type schrothExampleMeasurements [] = SchrothType.TYPE_3C := by
  have hmt : max_thoracic_angle schrothExampleMeasurements = 20 := by
    simp [max_thoracic_angle, schrothExampleMeasurements, listMaxD]
  have hml : max_lumbar_angle schrothExampleMeasurements = 0 := by
    simp [max_lumbar_angle, schrothExampleMeasurements, listMaxD]
  have hd : is_double_curve schrothExampleMeasurements = false := by
    unfold is_double_curve
    rw [hmt, hml]
    norm_num
  have h := (determine_schroth_type_spec schrothExampleMeasurements []).2.1
    (by simp [schrothExampleMeasurements]) (by decide)
  rw [h, hd, hml, hmt]
  norm_num

/-- C5: `determine_severity` returns MILD for every angle below 25
(including below 10), MODERATE on [25, 40), SEVERE on [40, 50) and
VERY_SEVERE from 50 on; the six boundary values evaluate accordingly. -/
theorem determine_severity_spec :
    (∀ a : ℚ,
      (a < 25 → determine_severity a = Severity.MILD) ∧
      (25 ≤ a → a < 40 → determine_severity a = Severity.MODERATE) ∧
      (40 ≤ a → a < 50 → determine_severity a = Severity.SEVERE) ∧
      (50 ≤ a → determine_severity a = Severity.VERY_SEVERE)) ∧
    determine_severity (249/10) = Severity.MILD ∧
    determine_severity 25 = Severity.MODERATE ∧
    determine_severity (399/10) = Severity.MODERATE ∧
    determine_severity 40 = Severity.SEVERE ∧
    determine_severity (499/10) = Severity.SEVERE ∧
    determine_severity 50 = Severity.VERY_SEVERE := by
  constructor
  · intro a
    unfold determine_severity
    refine ⟨fun h1 => ?_, fun h1 h2 => ?_, fun h1 h2 => ?_, fun h1 => ?_⟩ <;>
      split_ifs <;> first | rfl | linarith
  · refine ⟨?_, ?_, ?_, ?_, ?_, ?_⟩ <;> norm_num [determine_severity]

/-- Witness for C5 at the concrete angle 5 (below both thresholds). -/
theorem determine_severity_spec_witness :
    determine_severity 5 = Severity.MILD :=
  (determine_severity_spec.1 5).1 (by norm_num)

/-- `get_endplate_vector` of `cobb_angle.py` (lines 6-26): upper endplate
is top-right minus top-left, lower is bottom-right minus bottom-left. -/
def get_endplate_vector (kps : List Keypoint) (endplate : String := "upper") : ℚ × ℚ :=
  if endplate = "upper" then
    ((kps.getD 1 default).x - (kps.getD 0 default).x,
     (kps.getD 1 default).y - (kps.getD 0 default).y)
  else
    ((kps.getD 3 default).x - (kps.getD 2 default).x,
     (kps.getD 3 default).y - (kps.getD 2 default).y)

/-- Ascending insertion into a sorted list of indices. -/
def sortedInsert (n : ℕ) : List ℕ → List ℕ
  | [] => [n]
  | x :: xs => if n ≤ x then n :: x :: xs else x :: sortedInsert n xs

/-- Python `sorted(...)` on indices (insertion sort). -/
def insertionSortAsc (l : List ℕ) : List ℕ := l.foldr sortedInsert []

/-- Python `sorted(set(...))`. -/
def sortedDedupAsc (l : List ℕ) : List ℕ := insertionSortAsc l.dedup

/-- `find_inflection_points` of `cobb_angle.py` (lines 67-93): interior
indices where the tilt-difference sign changes, always including the
first and last index. For fewer than 3 vertebrae the source returns
`[0, len-1]`; with natural-number truncation the empty list yields
`[0, 0]` where Python would yield `[0, -1]` (no caller passes an empty
list). -/
def find_inflection_points (vs : List Vertebra) : List ℕ :=
  if vs.length < 3 then [0, vs.length - 1]
  else
    let tilts := vs.map (·.tilt_angle)
    let infl := (List.range vs.length).filter (fun i =>
      decide (1 ≤ i) && decide (i ≤ vs.length - 2) &&
      decide ((tilts.getD i 0 - tilts.getD (i - 1) 0) *
        (tilts.getD (i + 1) 0 - tilts.getD i 0) < 0))
    sortedDedupAsc ([0] ++ infl ++ [vs.length - 1])

/-- `find_apex_vertebra` of `cobb_angle.py` (lines 96-127): the vertebra
of the segment with maximum horizontal deviation from the midpoint of the
endpoint centers (strict improvement, first maximum wins). -/
def find_apex_vertebra (vs : List Vertebra) (start_idx end_idx : ℕ) : ℕ :=
  if end_idx - start_idx < 2 then start_idx
  else
    let seg := (vs.drop start_idx).take (end_idx + 1 - start_idx)
    let start_center := get_vertebra_center (seg.headD default).keypoints
    let end_center := get_vertebra_center (seg.getLastD default).keypoints
    let midline_x := (start_center.1 + end_center.1) / 2
    (seg.enum.foldl (fun best p =>
      if best.2 < |(get_vertebra_center p.2.keypoints).1 - midline_x| then
        (start_idx + p.1, |(get_vertebra_center p.2.keypoints).1 - midline_x|)
      else best) (start_idx, 0)).1

/-- `determine_curve_location` of `cobb_angle.py` (lines 130-162). Python
`int(total * 0.6)` etc. agree with natural floor division `total * 6 / 10`
on every possible count, including under binary floating point. -/
def determine_curve_location (upper_idx lower_idx total_vertebrae : ℕ) : CurveLocation :=
  let mid_point : ℚ := ((upper_idx : ℚ) + (lower_idx : ℚ)) / 2
  let thoracic_end : ℕ :=
    if 15 ≤ total_vertebrae then 9
    else if 10 ≤ total_vertebrae then total_vertebrae * 6 / 10
    else total_vertebrae * 5 / 10
  let lumbar_start : ℕ :=
    if 15 ≤ total_vertebrae then 13
    else if 10 ≤ total_vertebrae then total_vertebrae * 8 / 10
    else total_vertebrae * 7 / 10
  if mid_point ≤ (thoracic_end : ℚ) then CurveLocation.THORACIC
  else if (lumbar_start : ℚ) ≤ mid_point then CurveLocation.LUMBAR
  else CurveLocation.THORACOLUMBAR

/-- The pixel-space part of `determine_curve_direction` of
`cobb_angle.py` (lines 165-214): `NONE` for segments shorter than 3
vertebrae or an apex exactly on the midline (both early returns in the
source that skip the orientation correction), otherwise the side of the
midline the apex deviates to. -/
def pixel_space_direction (vs : List Vertebra) (start_idx end_idx : ℕ) : CurveDirection :=
  let seg := (vs.drop start_idx).take (end_idx + 1 - start_idx)
  if seg.length < 3 then CurveDirection.NONE
  else
    let x_positions := seg.map (fun v => (get_vertebra_center v.keypoints).1)
    let midline_x := (x_positions.headD 0 + x_positions.getLastD 0) / 2
    let apex_local_idx := (x_positions.enum.foldl (fun best p =>
      if best.2 < |p.2 - midline_x| then (p.1, |p.2 - midline_x|) else best) (0, 0)).1
    let apex_x := x_positions.getD apex_local_idx 0
    if midline_x < apex_x then CurveDirection.RIGHT
    else if apex_x < midline_x then CurveDirection.LEFT
    else CurveDirection.NONE

/-- `determine_curve_direction` of `cobb_angle.py` (lines 165-223): the
pixel-space direction, with right and left swapped when the image is
flipped (the source inverts only an actual RIGHT/LEFT result; both NONE
cases return before the orientation check). -/
def determine_curve_direction (vs : List Vertebra) (start_idx end_idx : ℕ)
    (orientation : ImageOrientation := ImageOrientation.STANDARD) : CurveDirection :=
  let pixel_direction := pixel_space_direction vs start_idx end_idx
  if pixel_direction = CurveDirection.NONE then CurveDirection.NONE
  else if orientation = ImageOrientation.FLIPPED then
    (match pixel_direction with
     | CurveDirection.RIGHT => CurveDirection.LEFT
     | CurveDirection.LEFT => CurveDirection.RIGHT
     | d => d)
  else pixel_direction

/-- The left/right inverse the spec describes for the flipped
orientation; `NONE` maps to `NONE`. -/
def invertDirection : CurveDirection → CurveDirection
  | CurveDirection.LEFT => CurveDirection.RIGHT
  | CurveDirection.RIGHT => CurveDirection.LEFT
  | CurveDirection.NONE => CurveDirection.NONE

/-- C6: on identical geometry, `determine_curve_direction` with the
flipped orientation is the exact left/right inverse of the standard
orientation (NONE maps to NONE), and the unknown orientation behaves as
the standard one. -/
theorem curve_direction_flip_inverts (vs : List Vertebra) (s e : ℕ) :
    determine_curve_direction vs s e ImageOrientation.FLIPPED =
      invertDirection (determine_curve_direction vs s e ImageOrientation.STANDARD) ∧
    determine_curve_direction vs s e ImageOrientation.UNKNOWN =
      determine_curve_direction vs s e ImageOrientation.STANDARD := by
  unfold determine_curve_direction
  cases h : pixel_space_direction vs s e <;> simp [invertDirection]

open scoped Classical in
/-- `calculate_angle_between_vectors` of `cobb_angle.py` (lines 36-64):
normalize both vectors (0 when either has zero norm), clamp the dot
product into [-1, 1], take `arccos` and convert to degrees. -/
noncomputable def calculate_angle_between_vectors (v1 v2 : ℚ × ℚ) : ℝ :=
  let norm1 : ℝ := Real.sqrt ((v1.1 : ℝ) ^ 2 + (v1.2 : ℝ) ^ 2)
  let norm2 : ℝ := Real.sqrt ((v2.1 : ℝ) ^ 2 + (v2.2 : ℝ) ^ 2)
  if norm1 = 0 ∨ norm2 = 0 then 0
  else
    let dot_product := (v1.1 : ℝ) / norm1 * ((v2.1 : ℝ) / norm2) +
      (v1.2 : ℝ) / norm1 * ((v2.2 : ℝ) / norm2)
    let clipped := min 1 (max (-1) dot_product)
    Real.arccos clipped * 180 / Real.pi

/-- Python `round(x, 1)` on a float, as a rational. -/
noncomputable def round1R (x : ℝ) : ℚ := (round (10 * x) : ℤ) / 10

/-- `calculate_cobb_angle_for_segment` of `cobb_angle.py` (lines
226-248): angle between the upper endplate of the upper vertebra and the
lower endplate of the lower vertebra, rounded to one decimal. -/
noncomputable def calculate_cobb_angle_for_segment
    (vs : List Vertebra) (upper_idx lower_idx : ℕ) : ℚ :=
  round1R (calculate_angle_between_vectors
    (get_endplate_vector (vs.getD upper_idx default).keypoints "upper")
    (get_endplate_vector (vs.getD lower_idx default).keypoints "lower"))

/-- The measurement `calculate_all_cobb_angles` emits for one inflection
pair (cobb_angle.py lines 287-302). -/
noncomputable def mkCobbMeasurement (vs : List Vertebra) (o : ImageOrientation)
    (p : ℕ × ℕ) : CobbAngleMeasurement :=
  { angle := calculate_cobb_angle_for_segment vs p.1 p.2,
    upper_vertebra := (vs.getD p.1 default).label,
    lower_vertebra := (vs.getD p.2 default).label,
    apex_vertebra := (vs.getD (find_apex_vertebra vs p.1 p.2) default).label,
    curve_location := determine_curve_location p.1 p.2 vs.length,
    curve_direction := determine_curve_direction vs p.1 p.2 o }

/-- The loop body of `calculate_all_cobb_angles` (lines 272-302): skip a
pair whose indices differ by less than 3, skip an angle below 10,
otherwise emit the measurement. -/
noncomputable def segmentMeasurement (vs : List Vertebra) (o : ImageOrientation)
    (p : ℕ × ℕ) : Option CobbAngleMeasurement :=
  if p.2 - p.1 < 3 then none
  else if calculate_cobb_angle_for_segment vs p.1 p.2 < 10 then none
  else some (mkCobbMeasurement vs o p)

/-- Stable insertion for the descending-by-angle sort (Python
`list.sort(key=angle, reverse=True)` is stable). -/
def insertByAngleDesc (m : CobbAngleMeasurement) :
    List CobbAngleMeasurement → List CobbAngleMeasurement
  | [] => [m]
  | y :: ys => if y.angle ≤ m.angle then m :: y :: ys else y :: insertByAngleDesc m ys

/-- Sort measurements by angle, largest first. -/
def sortByAngleDesc (l : List CobbAngleMeasurement) : List CobbAngleMeasurement :=
  l.foldr insertByAngleDesc []

/-- The consecutive inflection pairs the loop iterates over. -/
def consecutivePairs (l : List ℕ) : List (ℕ × ℕ) := l.zip l.tail

/-- `calculate_all_cobb_angles` of `cobb_angle.py` (lines 251-307). -/
noncomputable def calculate_all_cobb_angles (vs : List Vertebra)
    (orientation : ImageOrientation := ImageOrientation.STANDARD) :
    List CobbAngleMeasurement :=
  if vs.length < 5 then []
  else sortByAngleDesc
    ((consecutivePairs (find_inflection_points vs)).filterMap
      (segmentMeasurement vs orientation))

lemma mem_insertByAngleDesc {a m : CobbAngleMeasurement} {l : List CobbAngleMeasurement} :
    a ∈ insertByAngleDesc m l ↔ a = m ∨ a ∈ l := by
  induction l with
  | nil => simp [insertByAngleDesc]
  | cons y ys ih =>
    unfold insertByAngleDesc
    split_ifs
    · simp
    · simp [ih]
      tauto

lemma mem_sortByAngleDesc {a : CobbAngleMeasurement} {l : List CobbAngleMeasurement} :
    a ∈ sortByAngleDesc l ↔ a ∈ l := by
  induction l with
  | nil => simp [sortByAngleDesc]
  | cons y ys ih =>
    unfold sortByAngleDesc at ih ⊢
    simp [List.foldr_cons, mem_insertByAngleDesc, ih]

/-- C1 (amended): for at least 5 vertebrae, a measurement is in the
output exactly when it comes from a consecutive inflection pair whose
indices differ by at least 3 — that is, whose segment spans at least
FOUR vertebrae (a segment of exactly three vertebrae is skipped) — and
whose Cobb angle is at least 10 degrees. -/
theorem calculate_all_membership (vs : List Vertebra) (o : ImageOrientation)
    (m : CobbAngleMeasurement) (h5 : 5 ≤ vs.length) :
    m ∈ calculate_all_cobb_angles vs o ↔
      ∃ p ∈ consecutivePairs (find_inflection_points vs),
        3 ≤ p.2 - p.1 ∧ 10 ≤ calculate_cobb_angle_for_segment vs p.1 p.2 ∧
        m = mkCobbMeasurement vs o p := by
  unfold calculate_all_cobb_angles
  rw [if_neg (by omega), mem_sortByAngleDesc, List.mem_filterMap]
  constructor
  · rintro ⟨p, hp, he⟩
    refine ⟨p, hp, ?_⟩
    unfold segmentMeasurement at he
    split_ifs at he with h1 h2
    · exact ⟨by omega, by linarith, by simpa using he.symm⟩
  · rintro ⟨p, hp, h3, h10, hm⟩
    refine ⟨p, hp, ?_⟩
    unfold segmentMeasurement
    rw [if_neg (by omega), if_neg (by linarith), hm]

/-- Five concrete vertebrae with tilt sequence 0, 1, 2, 1, 0 — a single
interior inflection at index 2, giving the inflection list [0, 2, 4] and
two consecutive segments of exactly three vertebrae each. The upper
endplate of vertebra 0 is horizontal and the lower endplate of vertebra 2
is vertical, so the segment (0, 2) has a 90 degree Cobb angle. -/
def cexVertebrae : List Vertebra :=
  [⟨0, "T1", [], [⟨0, 0, 1⟩, ⟨1, 0, 1⟩, ⟨0, 1, 1⟩, ⟨1, 1, 1⟩], 1, 0⟩,
   ⟨1, "T2", [], [⟨0, 2, 1⟩, ⟨1, 2, 1⟩, ⟨0, 3, 1⟩, ⟨1, 3, 1⟩], 1, 1⟩,
   ⟨2, "T3", [], [⟨0, 4, 1⟩, ⟨1, 4, 1⟩, ⟨0, 5, 1⟩, ⟨0, 6, 1⟩], 1, 2⟩,
   ⟨3, "T4", [], [⟨0, 7, 1⟩, ⟨1, 7, 1⟩, ⟨0, 8, 1⟩, ⟨1, 8, 1⟩], 1, 1⟩,
   ⟨4, "T5", [], [⟨0, 9, 1⟩, ⟨1, 9, 1⟩, ⟨0, 10, 1⟩, ⟨1, 10, 1⟩], 1, 0⟩]

lemma cex_inflections : find_inflection_points cexVertebrae = [0, 2, 4] := by
  norm_num [find_inflection_points, cexVertebrae, sortedDedupAsc, insertionSortAsc,
    sortedInsert, List.range_succ, List.dedup_cons_of_mem, List.dedup_cons_of_not_mem]

lemma cex_angle : calculate_cobb_angle_for_segment cexVertebrae 0 2 = 90 := by
  unfold calculate_cobb_angle_for_segment
  have hu : get_endplate_vector (cexVertebrae.getD 0 default).keypoints "upper" =
      ((1 : ℚ), (0 : ℚ)) := by
    norm_num [cexVertebrae, get_endplate_vector]
  have hl : get_endplate_vector (cexVertebrae.getD 2 default).keypoints "lower" =
      ((0 : ℚ), (1 : ℚ)) := by
    have hs : ("lower" : String) ≠ "upper" := by decide
    norm_num [cexVertebrae, get_endplate_vector, hs]
  rw [hu, hl]
  unfold round1R calculate_angle_between_vectors
  norm_num [Real.sqrt_one, Real.arccos_zero]
  have hpi : (10 : ℝ) * (Real.pi / 2 * 180 / Real.pi) = 900 := by
    field_simp
    ring
  rw [hpi]
  norm_num [round_eq]

/-- C1 (counterexample to the claim as stated): a five-vertebra spine
whose consecutive inflection pair (0, 2) spans exactly THREE vertebrae
and has a 90 degree Cobb angle, yet `calculate_all_cobb_angles` emits no
measurement at all — the source skips every pair whose indices differ by
less than 3, i.e. every segment of fewer than four vertebrae. -/
theorem three_vertebra_segment_skipped :
    5 ≤ cexVertebrae.length ∧
    find_inflection_points cexVertebrae = [0, 2, 4] ∧
    (0, 2) ∈ consecutivePairs (find_inflection_points cexVertebrae) ∧
    ((cexVertebrae.drop 0).take (2 + 1 - 0)).length = 3 ∧
    (10 : ℚ) ≤ calculate_cobb_angle_for_segment cexVertebrae 0 2 ∧
    calculate_all_cobb_angles cexVertebrae ImageOrientation.STANDARD = [] := by
  refine ⟨by decide, cex_inflections, ?_, by decide, ?_, ?_⟩
  · rw [cex_inflections]
    decide
  · rw [cex_angle]
    norm_num
  · unfold calculate_all_cobb_angles
    rw [if_neg (by decide), cex_inflections]
    simp [consecutivePairs, segmentMeasurement, sortByAngleDesc]

/-- Witness for the amended C1: the membership characterisation applied
at the concrete five-vertebra input. -/
theorem calculate_all_membership_witness :
    mkCobbMeasurement cexVertebrae ImageOrientation.STANDARD (0, 2) ∈
        calculate_all_cobb_angles cexVertebrae ImageOrientation.STANDARD ↔
      ∃ p ∈ consecutivePairs (find_inflection_points cexVertebrae),
        3 ≤ p.2 - p.1 ∧ 10 ≤ calculate_cobb_angle_for_segment cexVertebrae p.1 p.2 ∧
        mkCobbMeasurement cexVertebrae ImageOrientation.STANDARD (0, 2) =
          mkCobbMeasurement cexVertebrae ImageOrientation.STANDARD p :=
  calculate_all_membership cexVertebrae ImageOrientation.STANDARD
    (mkCobbMeasurement cexVertebrae ImageOrientation.STANDARD (0, 2)) (by decide)
